import Mathlib

/-!
Shallow embedding of the Astra knowledge-base import adapter.

Source files modelled:
- server/schemas/document.py   (request/config schemas and their serialization)
- server/utils/document_processor.py  (QA text payload construction)
- server/utils/dify_document.py  (web crawler, remote indexing client)
- server/routes/knowledge_base.py  (import, delete and list endpoints)

HTTP I/O is modelled by passing the remote response as an explicit argument
and by returning, next to the result, the list of outbound calls the code
issues before returning.  Python exceptions are modelled with Except over an
error type mirroring the exception classes the code raises.  Calling an
async def without awaiting it is modelled by returning a value that records
the bound arguments of the un-started coroutine.
-/

namespace Astra

/-- JSON-like values: the shape of request parameters and response bodies. -/
inductive Jv where
  | null : Jv
  | str : String → Jv
  | num : Rat → Jv
  | bool : Bool → Jv
  | arr : List Jv → Jv
  | obj : List (String × Jv) → Jv
deriving Repr

/-- Mirrors the Python test `v is not None` used by the dict override. -/
def Jv.isNull : Jv → Bool
  | .null => true
  | _ => false

/-- Dictionary key lookup on a JSON object body. -/
def jvLookup (kvs : List (String × Jv)) (k : String) : Option Jv :=
  (kvs.find? (fun kv => kv.1 == k)).map Prod.snd

/-! ## Schemas (server/schemas/document.py) -/

inductive IndexingTechnique where
  | high_quality
  | economy
deriving DecidableEq, Repr

/-- Serialized enum value, as pydantic emits it. -/
def IndexingTechnique.value : IndexingTechnique → String
  | .high_quality => "high_quality"
  | .economy => "economy"

inductive DocumentForm where
  | text_model
  | hierarchical_model
  | qa_model
deriving DecidableEq, Repr

def DocumentForm.value : DocumentForm → String
  | .text_model => "text_model"
  | .hierarchical_model => "hierarchical_model"
  | .qa_model => "qa_model"

/-- Pydantic validation of a string against the DocumentForm enum. -/
def DocumentForm.ofValue : String → Option DocumentForm
  | "text_model" => some .text_model
  | "hierarchical_model" => some .hierarchical_model
  | "qa_model" => some .qa_model
  | _ => none

inductive DocumentLanguage where
  | english
  | chinese
deriving DecidableEq, Repr

def DocumentLanguage.value : DocumentLanguage → String
  | .english => "English"
  | .chinese => "Chinese"

inductive ProcessMode where
  | automatic
  | custom
deriving DecidableEq, Repr

def ProcessMode.value : ProcessMode → String
  | .automatic => "automatic"
  | .custom => "custom"

structure ProcessRule where
  mode : ProcessMode := .automatic
deriving DecidableEq, Repr

def ProcessRule.toJv (r : ProcessRule) : Jv :=
  .obj [("mode", .str r.mode.value)]

inductive SearchMethod where
  | hybrid_search
  | semantic_search
  | full_text_search
deriving DecidableEq, Repr

def SearchMethod.value : SearchMethod → String
  | .hybrid_search => "hybrid_search"
  | .semantic_search => "semantic_search"
  | .full_text_search => "full_text_search"

structure RerankingMode where
  reranking_provider_name : String := ""
  reranking_model_name : String := ""
deriving DecidableEq, Repr

def RerankingMode.toJv (m : RerankingMode) : Jv :=
  .obj [("reranking_provider_name", .str m.reranking_provider_name),
        ("reranking_model_name", .str m.reranking_model_name)]

structure RetrievalModel where
  search_method : SearchMethod := .hybrid_search
  reranking_enable : Bool := true
  reranking_mode : RerankingMode := {}
  top_k : Int := 3
  score_threshold_enabled : Bool := true
  score_threshold : Rat := 1/2
deriving DecidableEq, Repr

def RetrievalModel.toJv (m : RetrievalModel) : Jv :=
  .obj [("search_method", .str m.search_method.value),
        ("reranking_enable", .bool m.reranking_enable),
        ("reranking_mode", m.reranking_mode.toJv),
        ("top_k", .num m.top_k),
        ("score_threshold_enabled", .bool m.score_threshold_enabled),
        ("score_threshold", .num m.score_threshold)]

/-- Serialization of an optional field: pydantic emits null for an absent
optional value in the plain dict, before the override filters it out. -/
def optJv (f : α → Jv) : Option α → Jv
  | none => .null
  | some a => f a

/-- DocumentImportConfig: the IndexingConfig of the spec.  Field order is the
declaration order of the pydantic model. -/
structure DocumentImportConfig where
  name : String
  text : String
  indexing_technique : IndexingTechnique := .high_quality
  process_rule : ProcessRule := {}
  doc_form : Option DocumentForm := none
  doc_language : Option DocumentLanguage := none
  retrieval_model : Option RetrievalModel := none
  embedding_model : Option String := none
  embedding_model_provider : Option String := none
deriving Repr

/-- The plain pydantic dict of the model, with every declared field present
and absent optional values rendered as null. -/
def DocumentImportConfig.fullDict (c : DocumentImportConfig) : List (String × Jv) :=
  [("name", .str c.name),
   ("text", .str c.text),
   ("indexing_technique", .str c.indexing_technique.value),
   ("process_rule", c.process_rule.toJv),
   ("doc_form", optJv (fun f => .str f.value) c.doc_form),
   ("doc_language", optJv (fun l => .str l.value) c.doc_language),
   ("retrieval_model", optJv RetrievalModel.toJv c.retrieval_model),
   ("embedding_model", optJv Jv.str c.embedding_model),
   ("embedding_model_provider", optJv Jv.str c.embedding_model_provider)]

/-- The overridden dict method: builds the plain dict, then keeps only the
entries whose value is not None. -/
def DocumentImportConfig.dict (c : DocumentImportConfig) : List (String × Jv) :=
  c.fullDict.filter (fun kv => !kv.2.isNull)

/-! ## QA payload (server/utils/document_processor.py) -/

/-- Python str.join: empty string on no parts, the separator between
consecutive parts otherwise. -/
def pyJoin (sep : String) : List String → String
  | [] => ""
  | [x] => x
  | x :: y :: xs => x ++ sep ++ pyJoin sep (y :: xs)

/-- One rendered question/answer block, as the loop body formats it. -/
def qaRender (q a : String) : String :=
  "Q: " ++ q ++ "\n" ++ "A: " ++ a

/-- process_qa_document: zip the two lists, render each pair, join the
rendered blocks with a blank line. -/
def process_qa_document (questions answers : List String) : String :=
  pyJoin "\n\n" (List.zipWith qaRender questions answers)

/-- Written from the spec wording, for comparison with the source function:
the blocks are the rendered pairs of the paired list, in input order. -/
def qaSpecBlocks (pairs : List (String × String)) : List String :=
  pairs.map (fun p => qaRender p.1 p.2)

/-- Written from the spec wording: the payload joins the blocks of the paired
list, separated by a blank line. -/
def qaSpecPayload (pairs : List (String × String)) : String :=
  pyJoin "\n\n" (qaSpecBlocks pairs)

/-! ## Process configuration (server/config.py) -/

/-- The two credentials the adapter reads; empty string models an unset
environment variable, matching the defaults in Settings. -/
structure Settings where
  DIFY_DATASET_APIKEY : String := ""
  JINA_TOKEN : String := ""
deriving DecidableEq, Repr

/-! ## Python value plumbing -/

/-- Python truthiness of an optional string argument: None and the empty
string are falsy. -/
def strTruthy : Option String → Bool
  | none => false
  | some s => !(s == "")

/-- Python `a or b` on optional string arguments. -/
def pyOr (a b : Option String) : Option String :=
  if strTruthy a then a else b

/-- The `dataset_id = dataset_id or self.dataset_id` / `if not dataset_id`
prologue shared by every DifyDocument method: the effective dataset id, or
none when the method raises ValueError. -/
def resolveDatasetId (arg selfId : Option String) : Option String :=
  match pyOr arg selfId with
  | some s => if s = "" then none else some s
  | none => none

/-- The exception classes the modelled code can raise. -/
inductive PyErr where
  | valueError (msg : String)
  | httpException (status : Nat) (detail : String)
  | httpStatusError (status : Nat) (msg : String)
  | nameError (n : String)
  | jsonDecodeError (msg : String)
  | validationFailure (field : String)
deriving DecidableEq, Repr

/-- Python str(e) for each modelled exception (Starlette renders an
HTTPException as "status: detail"). -/
def PyErr.pyStr : PyErr → String
  | .valueError m => m
  | .httpException s d => toString s ++ ": " ++ d
  | .httpStatusError _ m => m
  | .nameError n => "name " ++ n ++ " is not defined"
  | .jsonDecodeError m => m
  | .validationFailure f => "1 validation error: field required: " ++ f

def PyErr.isNameError : PyErr → Bool
  | .nameError _ => true
  | _ => false

/-! ## HTTP modelling -/

/-- A remote response, passed in as an oracle: status code, raw body text,
and the body as JSON when it parses. -/
structure HttpResponse where
  status : Nat
  text : String := ""
  json : Option Jv := none
deriving Repr

/-- The error detail extraction shared by every client method: the body
message field when the body is a JSON object carrying a string message,
else the raw body text. -/
def respErrorDetail (r : HttpResponse) : String :=
  match r.json with
  | some (.obj kvs) =>
    match jvLookup kvs "message" with
    | some (.str m) => m
    | _ => r.text
  | _ => r.text

inductive HttpMethod where
  | get
  | post
  | delete
  | patch
deriving DecidableEq, Repr

/-- Which remote capability an outbound call exercises. -/
inductive CallKind where
  | jinaFetch
  | createByText
  | createByFile
  | getDoc
  | listDocs
  | deleteDoc
  | patchDoc
deriving DecidableEq, Repr

/-- One outbound HTTP call as the code issues it.  The timeout field records
the explicit timeout keyword passed to the HTTP library, in seconds; none
means the call was issued without a timeout. -/
structure OutboundCall where
  kind : CallKind
  method : HttpMethod
  url : String
  timeout : Option Nat := none
  payload : Option Jv := none
  params : List (String × Jv) := []
deriving Repr

def difyBaseUrl : String := "https://api.dify.ai/v1"

/-! ## Web Content Fetcher (DifyDocument.jina_crawler) -/

/-- jina_crawler: requires the crawler token, issues a GET against the
rendering proxy with no timeout keyword, raises ValueError on a non-200
status, returns the body text otherwise. -/
def jina_crawler (settings : Settings) (url : String) (resp : HttpResponse) :
    Except PyErr String × List OutboundCall :=
  if settings.JINA_TOKEN = "" then
    (.error (.valueError "JINA_TOKEN not configured in environment variables"), [])
  else
    let call : OutboundCall :=
      { kind := .jinaFetch, method := .get,
        url := "https://r.jina.ai" ++ "/" ++ url, timeout := none }
    if resp.status ≠ 200 then
      (.error (.valueError ("Failed to crawl URL: " ++ url ++ ". Status code: "
        ++ toString resp.status)), [call])
    else
      (.ok resp.text, [call])

/-! ## Remote Indexing Client (DifyDocument methods) -/

/-- The bound arguments of one create_from_text invocation: exactly what a
Python coroutine object for the call captures before it is awaited. -/
structure CreateFromTextCall where
  text : String
  title : Option String
  dataset_id : Option String
  doc_form : Option String := none
  import_mode : Option String := none
deriving DecidableEq, Repr

/-- The body of create_from_text up to the outbound POST: resolves the import
mode (ValueError when not default), defaults doc_form to text_model,
and builds the DocumentImportConfig pydantic model (a None title fails the
required name field). -/
def createFromTextConfig (selfId : Option String) (c : CreateFromTextCall) :
    Except PyErr (String × DocumentImportConfig) :=
  match resolveDatasetId c.dataset_id selfId with
  | none => .error (.valueError "Dataset ID is required")
  | some ds =>
    let mode := match c.import_mode with
      | some m => if m = "" then "default" else m
      | none => "default"
    if mode = "default" then
      let dfStr := match c.doc_form with
        | some f => if f = "" then "text_model" else f
        | none => "text_model"
      match DocumentForm.ofValue dfStr with
      | none => .error (.validationFailure "doc_form")
      | some df =>
        match c.title with
        | none => .error (.validationFailure "name")
        | some t =>
          .ok (ds,
            { name := t, text := c.text,
              indexing_technique := .high_quality,
              process_rule := { mode := .automatic },
              doc_form := some df })
    else
      .error (.valueError "Invalid import mode")

/-- Minimal pydantic parse of the create/get response body: the wrapper
model requires a document field. -/
def parseDifyResponse (j : Jv) : Except PyErr Jv :=
  match j with
  | .obj kvs =>
    match jvLookup kvs "document" with
    | some _ => .ok j
    | none => .error (.validationFailure "document")
  | _ => .error (.validationFailure "document")

/-- Awaiting a create_from_text coroutine: builds the config, POSTs its
filtered dict as the JSON body with a 60 second timeout, raises
HTTPStatusError on a non-200 status, parses the body otherwise. -/
def run_create_from_text (selfId : Option String) (c : CreateFromTextCall)
    (resp : HttpResponse) : Except PyErr Jv × List OutboundCall :=
  match createFromTextConfig selfId c with
  | .error e => (.error e, [])
  | .ok (ds, config) =>
    let call : OutboundCall :=
      { kind := .createByText, method := .post,
        url := difyBaseUrl ++ "/datasets/" ++ ds ++ "/document/create-by-text",
        timeout := some 60, payload := some (.obj config.dict) }
    if resp.status ≠ 200 then
      (.error (.httpStatusError resp.status
        ("Error creating document: " ++ respErrorDetail resp)), [call])
    else
      match resp.json with
      | some body => (parseDifyResponse body, [call])
      | none => (.error (.jsonDecodeError "Expecting value"), [call])

/-- What create_from_web evaluates to. The response constructor is what a
caller awaiting the nested create call could obtain; the coroutine
constructor is an un-started coroutine object carrying its bound
arguments. -/
inductive WebCreateOutcome where
  | err (e : PyErr)
  | response (body : Jv)
  | coroutine (pending : CreateFromTextCall)
deriving Repr

/-- create_from_web: resolves the dataset id, runs the crawler, then
evaluates `self.create_from_text(...)` WITHOUT await - returning the
coroutine object itself, so the nested body never runs and no
create-by-text call is issued. -/
def create_from_web (settings : Settings) (url : String) (title : Option String)
    (dsArg selfId : Option String) (crawlResp : HttpResponse) :
    WebCreateOutcome × List OutboundCall :=
  match resolveDatasetId dsArg selfId with
  | none => (.err (.valueError "Dataset ID is required"), [])
  | some ds =>
    match jina_crawler settings url crawlResp with
    | (.error e, tr) => (.err e, tr)
    | (.ok text, tr) =>
      (.coroutine
        { text := text, title := title, dataset_id := some ds,
          doc_form := some "text_model", import_mode := some "default" }, tr)

/-- delete_document: DELETE with a 30 second timeout; raises HTTPStatusError
on any non-200 status, returns True otherwise (False is never returned). -/
def delete_document (docId : String) (dsArg selfId : Option String)
    (resp : HttpResponse) : Except PyErr Bool × List OutboundCall :=
  match resolveDatasetId dsArg selfId with
  | none => (.error (.valueError "Dataset ID is required"), [])
  | some ds =>
    let call : OutboundCall :=
      { kind := .deleteDoc, method := .delete,
        url := difyBaseUrl ++ "/datasets/" ++ ds ++ "/documents/" ++ docId,
        timeout := some 30 }
    if resp.status ≠ 200 then
      (.error (.httpStatusError resp.status
        ("Error deleting document: " ++ respErrorDetail resp)), [call])
    else
      (.ok true, [call])

/-- list_documents: GET with query params page and limit (keyword only when
truthy) and a 30 second timeout; returns the parsed JSON body. -/
def list_documents (dsArg selfId : Option String) (page limit : Int)
    (keyword : Option String) (resp : HttpResponse) :
    Except PyErr Jv × List OutboundCall :=
  match resolveDatasetId dsArg selfId with
  | none => (.error (.valueError "Dataset ID is required"), [])
  | some ds =>
    let ps : List (String × Jv) :=
      [("page", .num page), ("limit", .num limit)]
        ++ (if strTruthy keyword then [("keyword", .str (keyword.getD ""))] else [])
    let call : OutboundCall :=
      { kind := .listDocs, method := .get,
        url := difyBaseUrl ++ "/datasets/" ++ ds ++ "/documents",
        timeout := some 30, params := ps }
    if resp.status ≠ 200 then
      (.error (.httpStatusError resp.status
        ("Error listing documents: " ++ respErrorDetail resp)), [call])
    else
      match resp.json with
      | some body => (.ok body, [call])
      | none => (.error (.jsonDecodeError "Expecting value"), [call])

/-! ## Route layer (server/routes/knowledge_base.py) -/

/-- What an endpoint handler resolves to: a JSON body, or an HTTPException
with status code and detail. -/
inductive EndpointResult where
  | ok (body : Jv)
  | err (status : Nat) (detail : String)
deriving Repr

/-- HTTP status an endpoint result surfaces (200 for a success body). -/
def EndpointResult.statusCode : EndpointResult → Nat
  | .ok _ => 200
  | .err s _ => s

/-- DifyDocument construction: raises ValueError when the Dify API key
setting is empty. -/
def difyInit (settings : Settings) : Except PyErr Unit :=
  if settings.DIFY_DATASET_APIKEY = "" then
    .error (.valueError "Dify API key not configured")
  else
    .ok ()

/-- delete_document_endpoint: constructs the client, awaits the delete; a
true result maps to a success body, the dead false branch to a 404 kept by
the HTTPException re-raise clause, and every other exception - including the
HTTPStatusError the client raises for a provider 404 - to a generic 500. -/
def delete_document_endpoint (settings : Settings) (dsid docid : String)
    (resp : HttpResponse) : EndpointResult × List OutboundCall :=
  match difyInit settings with
  | .error e => (.err 500 ("Failed to delete document: " ++ e.pyStr), [])
  | .ok _ =>
    match delete_document docid none (some dsid) resp with
    | (.ok res, tr) =>
      if res then
        (.ok (.obj [("status", .str "success"),
          ("message", .str ("Document " ++ docid ++ " deleted successfully"))]), tr)
      else
        (.err 404 "Document not found", tr)
    | (.error e, tr) => (.err 500 ("Failed to delete document: " ++ e.pyStr), tr)

/-- get_documents_from_knowledgebase: constructs the client and forwards
skip directly as the page keyword of list_documents; returns the data field
of the body; every exception maps to a generic 500. -/
def get_documents_from_knowledgebase (settings : Settings) (dsid : String)
    (skip limit : Int) (search : Option String) (resp : HttpResponse) :
    EndpointResult × List OutboundCall :=
  match difyInit settings with
  | .error e => (.err 500 ("Failed to get documents: " ++ e.pyStr), [])
  | .ok _ =>
    match list_documents none (some dsid) skip limit search resp with
    | (.error e, tr) => (.err 500 ("Failed to get documents: " ++ e.pyStr), tr)
    | (.ok body, tr) =>
      match body with
      | .obj kvs =>
        match jvLookup kvs "data" with
        | some d => (.ok d, tr)
        | none => (.err 500 "Failed to get documents: data", tr)
      | _ => (.err 500 "Failed to get documents: subscript", tr)

/-- The names bound at module scope in server/routes/knowledge_base.py: its
module imports and its own top-level definitions.  The three names
create_document_from_web, create_document_from_file and
create_document_from_qa that the import endpoint calls are not among
them. -/
def kbModuleGlobals : List String :=
  ["APIRouter", "HTTPException", "UploadFile", "File", "Form", "Depends",
   "Query", "Body", "List", "Optional", "Dict", "Any",
   "Document", "DocumentCreate", "WebDocumentCreate", "FileDocumentCreate",
   "QADocumentCreate", "DocumentUpdate",
   "process_web_document", "process_file_document", "process_qa_document",
   "get_documents", "update_document",
   "uuid", "datetime", "json", "httpx", "get_settings", "os",
   "DifyDocument", "DifyDocumentResponse",
   "router", "create_document_in_kb", "delete_document_endpoint",
   "get_documents_from_knowledgebase", "update_document_metadata_endpoint"]

/-- Evaluating a call through a bare module-level name: Python resolves the
name before evaluating arguments, so an unbound name raises NameError
without running anything; bound gives the behavior a binding would have. -/
def callModuleGlobal (bound : String → Except PyErr Jv × List OutboundCall)
    (n : String) : Except PyErr Jv × List OutboundCall :=
  if n ∈ kbModuleGlobals then bound n else (.error (.nameError n), [])

/-- The multipart form the import endpoint receives; questions and answers
arrive as raw JSON strings, the file as a presence flag. -/
structure RawForm where
  import_type : String
  title : String
  metadata : Option String := some ("\x7b\x7d")
  url : Option String := none
  hasFile : Bool := false
  questions : Option String := none
  answers : Option String := none
deriving Repr

/-- The try block around the question/answer parsing: json.loads both
strings (a decode error is caught and re-raised as a 400), require both
results to be lists, then require equal lengths. -/
def qaParse (parse : String → Except String Jv) (qs asg : String) :
    Except PyErr (List Jv × List Jv) :=
  match parse qs with
  | .error _ => .error (.httpException 400 "Invalid JSON format for questions or answers")
  | .ok qv =>
    match parse asg with
    | .error _ => .error (.httpException 400 "Invalid JSON format for questions or answers")
    | .ok av =>
      match qv, av with
      | .arr ql, .arr al =>
        if ql.length ≠ al.length then
          .error (.httpException 400 "Questions and answers must have the same length")
        else
          .ok (ql, al)
      | _, _ => .error (.httpException 400 "Questions and answers must be JSON arrays")

/-- The metadata argument of the QA document constructor:
`json.loads(metadata) if metadata else` the empty dict; a decode error here
is not caught locally. -/
def parseMetadataField (parse : String → Except String Jv)
    (metadata : Option String) : Except PyErr Jv :=
  if strTruthy metadata then
    match parse (metadata.getD "") with
    | .error m => .error (.jsonDecodeError m)
    | .ok v => .ok v
  else
    .ok (.obj [])

/-- The QADocumentCreate pydantic model: title, content (required, inherited
from DocumentCreate), source type, metadata and the two lists. -/
structure QADocumentCreateModel where
  title : String
  content : String
  source_type : String
  metadata : Jv
  questions : List Jv
  answers : List Jv
deriving Repr

/-- Constructing QADocumentCreate with keyword arguments: content is a
required field with no default, so a call that does not pass it - as the
endpoint call site does not - raises a pydantic validation error. -/
def qaDocumentCreateNew (title : String) (questions answers : List Jv)
    (source_type : String) (metadata : Jv) (content : Option String) :
    Except PyErr QADocumentCreateModel :=
  match content with
  | none => .error (.validationFailure "content")
  | some c =>
    .ok { title := title, content := c, source_type := source_type,
          metadata := metadata, questions := questions, answers := answers }

/-- The body of the try block of create_document_in_kb: dispatch on the
given import_type, validate the branch inputs, and call the branch handler
through its module-level name. -/
def importInner (parse : String → Except String Jv)
    (bound : String → Except PyErr Jv × List OutboundCall)
    (form : RawForm) : Except PyErr Jv × List OutboundCall :=
  if form.import_type = "web" then
    if !strTruthy form.url then
      (.error (.httpException 400 "URL is required for web imports"), [])
    else
      callModuleGlobal bound "create_document_from_web"
  else if form.import_type = "file" then
    if !form.hasFile then
      (.error (.httpException 400 "File is required for file imports"), [])
    else
      callModuleGlobal bound "create_document_from_file"
  else if form.import_type = "qa" then
    if !strTruthy form.questions || !strTruthy form.answers then
      (.error (.httpException 400 "Questions and answers are required for Q&A imports"), [])
    else
      match qaParse parse (form.questions.getD "") (form.answers.getD "") with
      | .error e => (.error e, [])
      | .ok (ql, al) =>
        match parseMetadataField parse form.metadata with
        | .error e => (.error e, [])
        | .ok mJv =>
          match qaDocumentCreateNew form.title ql al "qa" mJv none with
          | .error e => (.error e, [])
          | .ok _ => callModuleGlobal bound "create_document_from_qa"
  else
    (.error (.httpException 400 ("Invalid import type: " ++ form.import_type
      ++ ". Supported types: web, file, qa")), [])

/-- create_document_in_kb: the try body above, then the handler clauses: an
HTTPStatusError keeps its response status, while every other exception -
including the HTTPException(400) raises of the validation checks - is
wrapped into a generic 500. -/
def create_document_in_kb (parse : String → Except String Jv)
    (bound : String → Except PyErr Jv × List OutboundCall)
    (form : RawForm) : EndpointResult × List OutboundCall :=
  match importInner parse bound form with
  | (.ok body, tr) => (.ok body, tr)
  | (.error e, tr) =>
    match e with
    | .httpStatusError status _ => (.err status e.pyStr, tr)
    | _ => (.err 500 ("Failed to import document: " ++ e.pyStr), tr)

/-! ## Concrete inputs used by witnesses and counterexamples -/

/-- Settings with both credentials configured. -/
def demoSettings : Settings := { DIFY_DATASET_APIKEY := "k", JINA_TOKEN := "j" }

/-- A concrete stand-in for json.loads, covering exactly the strings the
concrete scenarios feed it. -/
def demoParse : String → Except String Jv
  | "[\"Q1\"]" => .ok (.arr [.str "Q1"])
  | "[\"A1\"]" => .ok (.arr [.str "A1"])
  | "[\"A1\",\"A2\"]" => .ok (.arr [.str "A1", .str "A2"])
  | "\x7b\x7d" => .ok (.obj [])
  | _ => .error "Expecting value"

/-- A behavior a bound branch handler would have: it would succeed and would
record an outbound call.  The theorems show the endpoint never invokes it. -/
def demoBound : String → Except PyErr Jv × List OutboundCall :=
  fun _ =>
    (.ok (.obj [("document", .obj [])]),
      [{ kind := .createByText, method := .post, url := difyBaseUrl,
         timeout := some 60 }])

/-- A 200 list response whose body carries an empty data array. -/
def listOkResp : HttpResponse :=
  { status := 200, text := "", json := some (.obj [("data", .arr [])]) }

/-! ## Helper lemmas -/

theorem zipWith_eq_map_zip (f : α → β → γ) :
    ∀ (xs : List α) (ys : List β),
      List.zipWith f xs ys = (xs.zip ys).map (fun p => f p.1 p.2)
  | [], _ => rfl
  | _ :: _, [] => rfl
  | x :: xs, y :: ys => by
    simp [List.zipWith, List.zip_cons_cons, zipWith_eq_map_zip f xs ys]

/-! ## Claim theorems -/

/-- C7: for every pair of equal-length non-empty question and answer lists,
the QA text payload of process_qa_document is the spec-worded payload: each
(question, answer) pair of the paired list rendered as one block, the blocks
joined separated by a blank line, in input order. -/
theorem qa_payload_matches_spec (qs as : List String)
    (_hlen : qs.length = as.length) (_hne : qs ≠ []) :
    process_qa_document qs as = qaSpecPayload (qs.zip as) := by
  unfold process_qa_document qaSpecPayload qaSpecBlocks
  rw [zipWith_eq_map_zip]

/-- Witness for C7 at a concrete two-pair input. -/
theorem qa_payload_matches_spec_witness :
    (["q1", "q2"].length = ["a1", "a2"].length ∧ ["q1", "q2"] ≠ ([] : List String)) ∧
    process_qa_document ["q1", "q2"] ["a1", "a2"] =
      qaSpecPayload (["q1", "q2"].zip ["a1", "a2"]) :=
  ⟨⟨rfl, by decide⟩,
   qa_payload_matches_spec ["q1", "q2"] ["a1", "a2"] rfl (by decide)⟩

set_option maxHeartbeats 2000000 in
/-- C6: the serialized create-by-text body contains a key for each of the
five optional fields exactly when that field has a present value, and no
serialized entry is null. -/
theorem config_dict_omits_absent_fields (c : DocumentImportConfig) :
    (∀ kv ∈ c.dict, kv.2.isNull = false) ∧
    ("doc_form" ∈ c.dict.map Prod.fst ↔ c.doc_form.isSome) ∧
    ("doc_language" ∈ c.dict.map Prod.fst ↔ c.doc_language.isSome) ∧
    ("retrieval_model" ∈ c.dict.map Prod.fst ↔ c.retrieval_model.isSome) ∧
    ("embedding_model" ∈ c.dict.map Prod.fst ↔ c.embedding_model.isSome) ∧
    ("embedding_model_provider" ∈ c.dict.map Prod.fst ↔
      c.embedding_model_provider.isSome) := by
  obtain ⟨n, t, it, pr, df, dl, rm, em, ep⟩ := c
  cases df <;> cases dl <;> cases rm <;> cases em <;> cases ep <;>
    simp [DocumentImportConfig.dict, DocumentImportConfig.fullDict, optJv,
      Jv.isNull, List.filter, ProcessRule.toJv, RetrievalModel.toJv]

/-- C5: delete_document returns true exactly when the provider status is
200, and there is no response for which it returns false: every non-success
status raises instead. -/
theorem delete_document_true_iff_success (docId : String)
    (dsArg selfId : Option String) (resp : HttpResponse) (ds : String)
    (hds : resolveDatasetId dsArg selfId = some ds) :
    ((delete_document docId dsArg selfId resp).1 = .ok true ↔ resp.status = 200) ∧
    (delete_document docId dsArg selfId resp).1 ≠ .ok false := by
  unfold delete_document
  rw [hds]
  by_cases hs : resp.status = 200 <;> simp [hs]

/-- Witness for C5: a resolvable dataset id and a 200 response. -/
theorem delete_document_true_iff_success_witness :
    resolveDatasetId none (some "ds1") = some "ds1" ∧
    (((delete_document "doc1" none (some "ds1") { status := 200 }).1 = .ok true ↔
        (200 : Nat) = 200) ∧
      (delete_document "doc1" none (some "ds1") { status := 200 }).1 ≠ .ok false) :=
  ⟨rfl, delete_document_true_iff_success "doc1" none (some "ds1")
    { status := 200 } "ds1" rfl⟩

/-- C9: whenever the crawl stage succeeds, create_from_web evaluates its
nested create_from_text call without await, so it returns the un-started
coroutine object carrying the bound arguments, and the only outbound call
made before it returns is the crawl fetch - never the create-by-text POST. -/
theorem create_from_web_returns_unstarted_coroutine (settings : Settings)
    (url : String) (title : Option String) (dsArg selfId : Option String)
    (resp : HttpResponse) (ds : String)
    (hds : resolveDatasetId dsArg selfId = some ds)
    (htok : settings.JINA_TOKEN ≠ "") (hok : resp.status = 200) :
    (create_from_web settings url title dsArg selfId resp).1 =
      .coroutine { text := resp.text, title := title, dataset_id := some ds,
                   doc_form := some "text_model", import_mode := some "default" } ∧
    (create_from_web settings url title dsArg selfId resp).2.map OutboundCall.kind =
      [CallKind.jinaFetch] := by
  unfold create_from_web jina_crawler
  rw [hds]
  simp [htok, hok]

/-- Witness for C9 at a concrete successful crawl. -/
theorem create_from_web_returns_unstarted_coroutine_witness :
    (resolveDatasetId none (some "ds1") = some "ds1" ∧
      demoSettings.JINA_TOKEN ≠ "" ∧ (200 : Nat) = 200) ∧
    (create_from_web demoSettings "https://example.com" (some "T") none
        (some "ds1") { status := 200, text := "Hello" }).1 =
      .coroutine { text := "Hello", title := some "T", dataset_id := some "ds1",
                   doc_form := some "text_model", import_mode := some "default" } :=
  ⟨⟨rfl, by decide, rfl⟩,
    (create_from_web_returns_unstarted_coroutine demoSettings "https://example.com"
      (some "T") none (some "ds1") { status := 200, text := "Hello" } "ds1"
      rfl (by decide) rfl).1⟩

/-- C1: at a web import whose fetch returns "Hello", create_from_web does
not pass any config to the remote create-by-text operation and does not
return a normalized document result: it returns the un-awaited coroutine
object, the only outbound call in its trace is the crawl fetch, and the
config the pending call would build (name = title, text = "Hello",
high_quality, automatic process rule, plus the text_model doc form) is never
sent because the coroutine never runs. -/
theorem create_from_web_hello_never_posts_config :
    (create_from_web demoSettings "https://example.com" (some "T") none
        (some "ds1") { status := 200, text := "Hello" }).1 =
      .coroutine { text := "Hello", title := some "T", dataset_id := some "ds1",
                   doc_form := some "text_model", import_mode := some "default" } ∧
    (create_from_web demoSettings "https://example.com" (some "T") none
        (some "ds1") { status := 200, text := "Hello" }).2.map OutboundCall.kind =
      [CallKind.jinaFetch] ∧
    createFromTextConfig (some "ds1")
        { text := "Hello", title := some "T", dataset_id := some "ds1",
          doc_form := some "text_model", import_mode := some "default" } =
      .ok ("ds1",
        { name := "T", text := "Hello",
          indexing_technique := .high_quality,
          process_rule := { mode := .automatic },
          doc_form := some DocumentForm.text_model }) :=
  ⟨rfl, rfl, rfl⟩

/-- C4 counterexample: a provider 404 on delete raises the same generic
HTTPStatusError shape as a provider 502, and the delete endpoint surfaces
the 404 as a 500 - there is no distinct NotFound outcome for the caller. -/
theorem delete_404_not_distinct_counterexample :
    (delete_document "doc1" none (some "ds1")
        { status := 404, text := "Not Found" }).1 =
      .error (.httpStatusError 404 "Error deleting document: Not Found") ∧
    (delete_document "doc1" none (some "ds1")
        { status := 502, text := "Bad Gateway" }).1 =
      .error (.httpStatusError 502 "Error deleting document: Bad Gateway") ∧
    (delete_document_endpoint demoSettings "ds1" "doc1"
        { status := 404, text := "Not Found" }).1.statusCode = 500 ∧
    (delete_document_endpoint demoSettings "ds1" "doc1"
        { status := 404, text := "Not Found" }).1.statusCode ≠ 404 :=
  ⟨rfl, rfl, rfl, by decide⟩

/-- C4 amended: for every non-200 provider status, delete_document raises
the one generic HTTPStatusError carrying that status (404 included, with no
distinct NotFound error), and the delete endpoint surfaces every such
failure as a 500. -/
theorem delete_404_uniform_generic_error (settings : Settings)
    (dsid docid : String) (resp : HttpResponse)
    (hkey : settings.DIFY_DATASET_APIKEY ≠ "") (hds : dsid ≠ "")
    (hst : resp.status ≠ 200) :
    (delete_document docid none (some dsid) resp).1 =
      .error (.httpStatusError resp.status
        ("Error deleting document: " ++ respErrorDetail resp)) ∧
    (delete_document_endpoint settings dsid docid resp).1.statusCode = 500 := by
  have hres : resolveDatasetId none (some dsid) = some dsid := by
    simp [resolveDatasetId, pyOr, strTruthy, hds]
  constructor
  · unfold delete_document
    rw [hres]
    simp [hst]
  · unfold delete_document_endpoint difyInit delete_document
    rw [if_neg hkey, hres]
    simp [hst, EndpointResult.statusCode]

/-- Witness for C4 amended, at a provider 404. -/
theorem delete_404_uniform_generic_error_witness :
    (demoSettings.DIFY_DATASET_APIKEY ≠ "" ∧ ("ds1" : String) ≠ "" ∧
      (404 : Nat) ≠ 200) ∧
    (delete_document_endpoint demoSettings "ds1" "doc1"
        { status := 404, text := "x" }).1.statusCode = 500 :=
  ⟨⟨by decide, by decide, by decide⟩,
    (delete_404_uniform_generic_error demoSettings "ds1" "doc1"
      { status := 404, text := "x" } (by decide) (by decide) (by decide)).2⟩

/-- The list client issues exactly one GET whose page parameter is the page
argument it was given and whose limit is the limit argument. -/
theorem list_documents_issues_page (dsid : String) (page limit : Int)
    (kw : Option String) (resp : HttpResponse) (hds : dsid ≠ "") :
    (list_documents none (some dsid) page limit kw resp).2.map
        (fun c => (jvLookup c.params "page", jvLookup c.params "limit")) =
      [(some (.num page), some (.num limit))] := by
  have hres : resolveDatasetId none (some dsid) = some dsid := by
    simp [resolveDatasetId, pyOr, strTruthy, hds]
  unfold list_documents
  rw [hres]
  by_cases hs : resp.status = 200
  · cases hj : resp.json with
    | none => simp [hs, hj, jvLookup, List.find?]
    | some body => cases body <;> simp [hs, hj, jvLookup, List.find?]
  · simp [hs, jvLookup, List.find?]

/-- The list endpoint makes exactly the outbound calls of the client list
operation it forwards to. -/
theorem get_documents_trace_eq (settings : Settings) (dsid : String)
    (skip limit : Int) (search : Option String) (resp : HttpResponse)
    (hkey : settings.DIFY_DATASET_APIKEY ≠ "") :
    (get_documents_from_knowledgebase settings dsid skip limit search resp).2 =
      (list_documents none (some dsid) skip limit search resp).2 := by
  unfold get_documents_from_knowledgebase difyInit
  rw [if_neg hkey]
  cases h : list_documents none (some dsid) skip limit search resp with
  | mk res tr =>
    cases res with
    | error e => simp
    | ok body =>
      cases body <;> simp
      case obj kvs => cases jvLookup kvs "data" <;> simp

/-- C3 counterexample: list_documents(skip=0, limit=100) through the public
endpoint issues a request whose page parameter is 0, not 1, and skip=100
issues page 100, not the second page of 100 results. -/
theorem list_skip0_requests_page0_not_page1 :
    (get_documents_from_knowledgebase demoSettings "ds1" 0 100 none
        listOkResp).2.map (fun c => jvLookup c.params "page") =
      [some (.num 0)] ∧
    (get_documents_from_knowledgebase demoSettings "ds1" 100 100 none
        listOkResp).2.map (fun c => jvLookup c.params "page") =
      [some (.num 100)] ∧
    some (Jv.num 0) ≠ some (Jv.num 1) ∧
    some (Jv.num 100) ≠ some (Jv.num 2) := by
  refine ⟨rfl, rfl, ?_, ?_⟩ <;> simp

/-- C3 amended: the public list operation passes skip through to the
provider page parameter unchanged (the identity mapping - deterministic and
monotonic, but 0-indexed where the provider is 1-indexed), and passes limit
unchanged. -/
theorem list_skip_passed_as_page (settings : Settings) (dsid : String)
    (skip limit : Int) (search : Option String) (resp : HttpResponse)
    (hkey : settings.DIFY_DATASET_APIKEY ≠ "") (hds : dsid ≠ "") :
    (get_documents_from_knowledgebase settings dsid skip limit search resp).2.map
        (fun c => (jvLookup c.params "page", jvLookup c.params "limit")) =
      [(some (.num skip), some (.num limit))] := by
  rw [get_documents_trace_eq settings dsid skip limit search resp hkey]
  exact list_documents_issues_page dsid skip limit search resp hds

/-- Witness for C3 amended at skip=100, limit=100. -/
theorem list_skip_passed_as_page_witness :
    (demoSettings.DIFY_DATASET_APIKEY ≠ "" ∧ ("ds1" : String) ≠ "") ∧
    (get_documents_from_knowledgebase demoSettings "ds1" 100 100 none
        listOkResp).2.map
        (fun c => (jvLookup c.params "page", jvLookup c.params "limit")) =
      [(some (.num 100), some (.num 100))] :=
  ⟨⟨by decide, by decide⟩,
    list_skip_passed_as_page demoSettings "ds1" 100 100 none listOkResp
      (by decide) (by decide)⟩

/-- C8: the crawl fetch is issued with no timeout at all (so it can wait on
the network indefinitely and can never fail with a timeout error), while the
remote indexing client calls do carry explicit timeouts (60 seconds for the
content-bearing create call, 30 for delete and list). -/
theorem crawl_call_has_no_timeout :
    ((jina_crawler demoSettings "https://example.com"
        { status := 200, text := "Hello" }).2.map OutboundCall.timeout) = [none] ∧
    ((delete_document "doc1" none (some "ds1")
        { status := 200 }).2.map OutboundCall.timeout) = [some 30] ∧
    ((list_documents none (some "ds1") 1 20 none listOkResp).2.map
        OutboundCall.timeout) = [some 30] ∧
    ((run_create_from_text (some "ds1")
        { text := "Hello", title := some "T", dataset_id := some "ds1" }
        { status := 200, json := some (.obj [("document", .obj [])]) }).2.map
        OutboundCall.timeout) = [some 60] :=
  ⟨rfl, rfl, rfl, rfl⟩

/-- C2: a QA import whose parsed question and answer lists differ in length
makes zero outbound calls, but the HTTPException(400) the length check
raises is caught by the catch-all handler of the endpoint and surfaced as a
generic 500, not as a 400 validation error. -/
theorem qa_mismatch_surfaces_500_no_calls (parse : String → Except String Jv)
    (bound : String → Except PyErr Jv × List OutboundCall) (form : RawForm)
    (qs asg : String) (ql al : List Jv)
    (htype : form.import_type = "qa")
    (hq : form.questions = some qs) (ha : form.answers = some asg)
    (hq0 : qs ≠ "") (ha0 : asg ≠ "")
    (hpq : parse qs = .ok (.arr ql)) (hpa : parse asg = .ok (.arr al))
    (hlen : ql.length ≠ al.length) :
    create_document_in_kb parse bound form =
      (.err 500 "Failed to import document: 400: Questions and answers must have the same length",
        []) := by
  unfold create_document_in_kb importInner qaParse
  rw [htype, hq, ha]
  simp [strTruthy, hq0, ha0, hpq, hpa, hlen, PyErr.pyStr]
  rfl

/-- The concrete Scenario A form: one question against two answers. -/
def qaMismatchForm : RawForm :=
  { import_type := "qa", title := "T", metadata := some "\x7b\x7d",
    questions := some "[\"Q1\"]", answers := some "[\"A1\",\"A2\"]" }

/-- Witness for C2 at Scenario A. -/
theorem qa_mismatch_surfaces_500_no_calls_witness :
    (demoParse "[\"Q1\"]" = .ok (.arr [.str "Q1"]) ∧
      demoParse "[\"A1\",\"A2\"]" = .ok (.arr [.str "A1", .str "A2"]) ∧
      [Jv.str "Q1"].length ≠ [Jv.str "A1", Jv.str "A2"].length) ∧
    create_document_in_kb demoParse demoBound qaMismatchForm =
      (.err 500 "Failed to import document: 400: Questions and answers must have the same length",
        []) :=
  ⟨⟨rfl, rfl, by decide⟩,
    qa_mismatch_surfaces_500_no_calls demoParse demoBound qaMismatchForm
      "[\"Q1\"]" "[\"A1\",\"A2\"]" [Jv.str "Q1"] [Jv.str "A1", Jv.str "A2"]
      rfl rfl rfl (by decide) (by decide) rfl rfl (by decide)⟩

/-- Every run of the import endpoint body raises some exception: no branch
can produce a document. -/
theorem importInner_always_raises (parse : String → Except String Jv)
    (bound : String → Except PyErr Jv × List OutboundCall) (form : RawForm) :
    ∃ e tr, importInner parse bound form = (.error e, tr) := by
  have hw : ("create_document_from_web" ∈ kbModuleGlobals) = False := by decide
  have hf : ("create_document_from_file" ∈ kbModuleGlobals) = False := by decide
  have hqn : ("create_document_from_qa" ∈ kbModuleGlobals) = False := by decide
  unfold importInner callModuleGlobal
  by_cases h1 : form.import_type = "web"
  · by_cases hu : strTruthy form.url <;> simp [h1, hu, hw]
  · by_cases h2 : form.import_type = "file"
    · by_cases hfile : form.hasFile <;> simp [h1, h2, hfile, hf]
    · by_cases h3 : form.import_type = "qa"
      · simp only [h1, h2, h3, if_false, if_true, ite_true, ite_false, if_neg, if_pos]
        by_cases hq : strTruthy form.questions
        · by_cases ha : strTruthy form.answers
          · simp only [hq, ha]
            cases hqp : qaParse parse (form.questions.getD "") (form.answers.getD "") with
            | error e => simp [hqp]
            | ok p =>
              cases p with
              | mk ql al =>
                cases hm : parseMetadataField parse form.metadata with
                | error e => simp [hqp, hm]
                | ok m => simp [hqp, hm, qaDocumentCreateNew]
          · simp [hq, ha]
        · simp [hq]
      · simp [h1, h2, h3]

/-- C10 counterexample: a QA import that passes every input validation check
does not raise a name-resolution error - it fails first constructing the
QADocumentCreate model, whose required content field the call site never
passes - and ends in the same generic 500. -/
def qaValidForm : RawForm :=
  { import_type := "qa", title := "T", metadata := some "\x7b\x7d",
    questions := some "[\"Q1\"]", answers := some "[\"A1\"]" }

theorem qa_valid_import_fails_before_name_lookup :
    (importInner demoParse demoBound qaValidForm).1 =
      .error (.validationFailure "content") ∧
    PyErr.isNameError (.validationFailure "content") = false ∧
    (create_document_in_kb demoParse demoBound qaValidForm).1 =
      .err 500 "Failed to import document: 1 validation error: field required: content" :=
  ⟨rfl, rfl, rfl⟩

/-- C10 amended: the web and file branches do reach their undefined function
names and raise NameError; the qa branch raises a pydantic validation error
first (the required content field is never passed); in every case the
endpoint surfaces a failure and no import request can ever return a
document. -/
theorem import_endpoint_never_returns_document :
    (∀ parse bound form, form.import_type = "web" → strTruthy form.url = true →
      importInner parse bound form =
        (.error (.nameError "create_document_from_web"), [])) ∧
    (∀ parse bound form, form.import_type = "file" → form.hasFile = true →
      importInner parse bound form =
        (.error (.nameError "create_document_from_file"), [])) ∧
    (∀ parse bound form ql al m, form.import_type = "qa" →
      strTruthy form.questions = true → strTruthy form.answers = true →
      qaParse parse (form.questions.getD "") (form.answers.getD "") = .ok (ql, al) →
      parseMetadataField parse form.metadata = .ok m →
      importInner parse bound form =
        (.error (.validationFailure "content"), [])) ∧
    (∀ parse bound form body,
      (create_document_in_kb parse bound form).1 ≠ .ok body) := by
  have hw : ("create_document_from_web" ∈ kbModuleGlobals) = False := by decide
  have hf : ("create_document_from_file" ∈ kbModuleGlobals) = False := by decide
  refine ⟨?_, ?_, ?_, ?_⟩
  · intro parse bound form htype hurl
    unfold importInner callModuleGlobal
    simp [htype, hurl, hw]
  · intro parse bound form htype hfile
    unfold importInner callModuleGlobal
    simp [htype, hfile, hf]
  · intro parse bound form ql al m htype hq ha hqp hm
    unfold importInner
    simp [htype, hq, ha, hqp, hm, qaDocumentCreateNew]
  · intro parse bound form body
    obtain ⟨e, tr, h⟩ := importInner_always_raises parse bound form
    unfold create_document_in_kb
    rw [h]
    cases e <;> simp

/-- A concrete web import form with a URL present. -/
def webDemoForm : RawForm :=
  { import_type := "web", title := "T", url := some "https://example.com" }

/-- Witness for C10 amended: the web branch at a concrete form, and the
no-document-ever conclusion at the same form. -/
theorem import_endpoint_never_returns_document_witness :
    (("web" : String) = "web" ∧ strTruthy (some "https://example.com") = true) ∧
    importInner demoParse demoBound webDemoForm =
      (.error (.nameError "create_document_from_web"), []) ∧
    (create_document_in_kb demoParse demoBound webDemoForm).1 ≠ .ok (.obj []) :=
  ⟨⟨rfl, rfl⟩,
    import_endpoint_never_returns_document.1 demoParse demoBound webDemoForm rfl rfl,
    import_endpoint_never_returns_document.2.2.2 demoParse demoBound webDemoForm (.obj [])⟩

end Astra
